import Mathlib

/-!
Shallow embedding of the style merge/extraction engine of `modules/styles.py`
from the stable-diffusion-webui repository.

The embedding keeps the source's structure:
 - `merge_prompts` (lines 17-24) and `apply_styles_to_prompt` (lines 27-31)
   are pure string functions, modelled directly over `List Char` primitives
   (`pyStrip`, `containsPlaceholder`, `pyReplacePlaceholder`, `joinComma`)
   that mirror the Python `str` builtins used there.
 - `extract_style_text_from_prompt` (lines 42-63) is fallible in the source:
   its normalization loop over `re_list` (lines 35-39) raises on every call,
   because the three entries of `re_list` are Python set literals and the
   call `regex.sub(" ", replace, text)` passes the wrong arguments to
   `re.Pattern.sub`.  The model returns `Except` accordingly; see the doc
   comment on `extract_style_text_from_prompt` for the line-by-line argument.
 - `extract_style_from_prompts` (lines 66-82) and
   `StyleDatabase.extract_styles_from_prompt` (lines 191-215) are modelled
   over an explicit list of `PromptStyle` records (the Python code takes
   `list(self.styles.values())`), with the `while True` peeling loop given
   as fuel one more than the number of styles: each successful pass removes
   exactly one style from the applicable list, so that fuel always suffices
   (proved below; the `fuelExhausted` marker is unreachable).
-/

namespace Styles

/-- Outcome of a Python call that can raise.  The broken normalization loop in
`extract_style_text_from_prompt` raises `TypeError` or `AttributeError`
depending on the hash-dependent iteration order of the `re_list` set literals;
since the choice between the two is nondeterministic but an exception is
certain, the model collapses both into the single constructor
`typeOrAttributeError`.  `fuelExhausted` marks a `while True` loop running past
its proven iteration bound; it is proved unreachable below. -/
inductive PyErr where
  | typeOrAttributeError
  | fuelExhausted
deriving DecidableEq, Repr

/-- The whitespace characters stripped by Python `str.strip()` (ASCII part:
space, tab, newline, carriage return, vertical tab, form feed).  Python also
strips some exotic Unicode space characters; none of the claims involve
them. -/
def pySpaceChar (c : Char) : Bool :=
  c == ' ' || c == '\t' || c == '\n' || c == '\r' || c == Char.ofNat 11 || c == Char.ofNat 12

/-- Python `s.strip()`: remove leading and trailing whitespace. -/
def pyStrip (s : String) : String :=
  String.mk (((s.data.dropWhile pySpaceChar).reverse.dropWhile pySpaceChar).reverse)

/-- The literal placeholder token `"{prompt}"` as a character list. -/
def placeholder : List Char := String.data "{prompt}"

/-- Python `"{prompt}" in s` (substring containment test), on the character
list of `s`. -/
def containsPlaceholder : List Char → Bool
  | [] => false
  | c :: rest => placeholder.isPrefixOf (c :: rest) || containsPlaceholder rest

/-- Python `s.replace("{prompt}", repl)`: replace every non-overlapping
occurrence of the placeholder, scanning left to right; replacement text is
spliced in and never rescanned, exactly as `str.replace` does.  The `Nat`
argument is structural fuel, always instantiated with the length of the
scanned list; every step consumes at least one character, so the `0, l => l`
fallback is unreachable for that instantiation. -/
def replacePlaceholderAux (repl : List Char) : Nat → List Char → List Char
  | _, [] => []
  | 0, l => l
  | fuel + 1, c :: rest =>
    if placeholder.isPrefixOf (c :: rest) then
      repl ++ replacePlaceholderAux repl fuel (rest.drop (placeholder.length - 1))
    else
      c :: replacePlaceholderAux repl fuel rest

/-- Python `style_prompt.replace("{prompt}", prompt)`. -/
def pyReplacePlaceholder (s repl : String) : String :=
  String.mk (replacePlaceholderAux repl.data s.data.length s.data)

/-- Python `", ".join(parts)`. -/
def joinComma : List String → String
  | [] => ""
  | [x] => x
  | x :: y :: rest => x ++ ", " ++ joinComma (y :: rest)

/-- `merge_prompts` (styles.py lines 17-24):
if the style template contains `"{prompt}"`, substitute the prompt for every
occurrence; otherwise join the truthy (non-empty) members of
`(prompt.strip(), style_prompt.strip())` with `", "` — the Python
`filter(None, ...)` keeps exactly the non-empty strings, in that order. -/
def merge_prompts (style_prompt prompt : String) : String :=
  if containsPlaceholder style_prompt.data then
    pyReplacePlaceholder style_prompt prompt
  else
    joinComma (([pyStrip prompt, pyStrip style_prompt]).filter fun s => !s.data.isEmpty)

/-- `apply_styles_to_prompt` (styles.py lines 27-31): fold `merge_prompts`
left to right over the style template list, carrying the running prompt. -/
def apply_styles_to_prompt (prompt : String) (styles : List String) : String :=
  styles.foldl (fun p style => merge_prompts style p) prompt

/-- `PromptStyle` (styles.py lines 10-14), a `typing.NamedTuple` with fields
`name`, `prompt`, `negative_prompt`, `path`.  The template and path fields are
`Option String` because the loader stores Python `None` there for synthetic
divider records (`PromptStyle(f"{file.upper()}", None, None, "divider")`) and
for the default `path=None`.  Equality is componentwise, as for a Python
named tuple. -/
structure PromptStyle where
  name : String
  prompt : Option String
  negative_prompt : Option String
  path : Option String := none
deriving DecidableEq, Repr

/-- Python truthiness of an optional string field: `None` and `""` are falsy,
every non-empty string is truthy. -/
def pyFalsy : Option String → Bool
  | none => true
  | some s => s.data.isEmpty

/-- `extract_style_text_from_prompt` (styles.py lines 42-63), modelled
faithfully as the code is written.  The function begins with

    for var in ["style_text", "prompt"]:
        text = locals()[var]
        for _, regex, replace in re_list:
            text = regex.sub(" ", replace, text)
        locals()[var] = text

where `re_list` (lines 35-39) is a list of three-element Python *set*
literals, e.g. `{"a_before_vowel", re.compile("([Aa])\s+([AEIOUaeiou])"), "$1n $2"}`
(braces with commas and no colons build a `set`, not a `dict`).  Unpacking
`for _, regex, replace in re_list` therefore binds the label string, the
compiled pattern and the replacement string to `_`, `regex`, `replace` in an
arbitrary hash-dependent order, and `regex.sub(" ", replace, text)` then
either
 - calls `re.Pattern.sub(repl=" ", string=replace, count=text)` with a string
   as `count` (a `TypeError`: `count` must be an integer), when `regex` landed
   on the compiled pattern, or
 - looks up `.sub` on a plain string (an `AttributeError`), otherwise.

Both paths raise on the very first inner-loop step, for every possible input
(including `None`, which the caller can pass for a divider record's template),
before any of the suffix/placeholder matching logic on lines 49-63 can run.
The matching code of lines 49-63 is therefore dead, and the faithful model of
the whole function is the immediate exception. -/
def extract_style_text_from_prompt (style_text : Option String) (prompt : String) :
    Except PyErr (Bool × String) :=
  .error PyErr.typeOrAttributeError

/-- `extract_style_from_prompts` (styles.py lines 66-82): a style whose two
template fields are both falsy short-circuits to `(False, prompt,
negative_prompt)` before any extraction is attempted; otherwise the positive
extraction runs first (any exception propagates), then the negative one, and
only a double match returns `True` with the two remainders. -/
def extract_style_from_prompts (style : PromptStyle) (prompt negative_prompt : String) :
    Except PyErr (Bool × String × String) :=
  if pyFalsy style.prompt && pyFalsy style.negative_prompt then
    .ok (false, prompt, negative_prompt)
  else
    match extract_style_text_from_prompt style.prompt prompt with
    | .error e => .error e
    | .ok (match_positive, extracted_positive) =>
      if match_positive = false then
        .ok (false, prompt, negative_prompt)
      else
        match extract_style_text_from_prompt style.negative_prompt negative_prompt with
        | .error e => .error e
        | .ok (match_negative, extracted_negative) =>
          if match_negative = false then
            .ok (false, prompt, negative_prompt)
          else
            .ok (true, extracted_positive, extracted_negative)

/-- The inner `for style in applicable_styles` scan of
`StyleDatabase.extract_styles_from_prompt` (styles.py lines 198-207): return
the first style reporting a match, together with the updated prompt pair; the
prompt pair is only updated on a match, and an exception from
`extract_style_from_prompts` propagates. -/
def findFirstMatch : List PromptStyle → String → String →
    Except PyErr (Option (PromptStyle × String × String))
  | [], _, _ => .ok none
  | style :: rest, p, n =>
    match extract_style_from_prompts style p n with
    | .error e => .error e
    | .ok (is_match, p2, n2) =>
      if is_match then .ok (some (style, p2, n2)) else findFirstMatch rest p n

/-- The `while True` peeling loop of
`StyleDatabase.extract_styles_from_prompt` (styles.py lines 196-213): scan
for the first matching style; if none, return `list(reversed(extracted))`
with the current prompt pair; otherwise remove the first list element equal
to the found style (Python `list.remove`) and append its name to `extracted`.
The `Nat` argument is structural fuel for the source's unbounded loop; each
successful pass removes exactly one style, so fuel equal to the number of
styles plus one always suffices and the `fuelExhausted` outcome is
unreachable (proved below). -/
def extractLoop : Nat → List PromptStyle → String → String → List String →
    Except PyErr (List String × String × String)
  | 0, _, _, _, _ => .error PyErr.fuelExhausted
  | fuel + 1, applicable, p, n, extracted =>
    match findFirstMatch applicable p n with
    | .error e => .error e
    | .ok none => .ok (extracted.reverse, p, n)
    | .ok (some (style, p2, n2)) =>
      extractLoop fuel (applicable.erase style) p2 n2 (extracted ++ [style.name])

/-- `StyleDatabase.extract_styles_from_prompt` (styles.py lines 191-215),
over the explicit style list `list(self.styles.values())`. -/
def extract_styles_from_prompt (styles : List PromptStyle) (prompt negative_prompt : String) :
    Except PyErr (List String × String × String) :=
  extractLoop (styles.length + 1) styles prompt negative_prompt []

/-- TemplateMerger.merge as the specification words it (spec section 4.2,
claim C5): with a placeholder, substitute every occurrence; without one,
case-split on emptiness of the trimmed prompt and trimmed template — both
empty gives the empty string, one empty gives the other trimmed side alone,
and otherwise the two trimmed sides joined by `", "` in prompt-then-template
order. -/
def merge_prompts_spec (style_prompt prompt : String) : String :=
  if containsPlaceholder style_prompt.data then
    pyReplacePlaceholder style_prompt prompt
  else if (pyStrip prompt).data.isEmpty && (pyStrip style_prompt).data.isEmpty then
    ""
  else if (pyStrip prompt).data.isEmpty then
    pyStrip style_prompt
  else if (pyStrip style_prompt).data.isEmpty then
    pyStrip prompt
  else
    pyStrip prompt ++ ", " ++ pyStrip style_prompt

/-! ### Helper lemmas -/

/-- Two strings with the same character data are equal. -/
theorem string_data_ext {s t : String} (h : s.data = t.data) : s = t := by
  cases s
  cases t
  cases h
  rfl

/-- A string whose character data is empty is the empty string. -/
theorem string_empty_of_isEmpty {s : String} (h : s.data.isEmpty = true) : s = "" := by
  cases s with
  | mk l =>
    cases l with
    | nil => rfl
    | cons c cs => simp [List.isEmpty] at h

/-- Case analysis for the no-placeholder branch of `merge_prompts`, shared by
the proofs about the merge path. -/
theorem merge_prompts_no_placeholder_cases (T P : String)
    (hc : containsPlaceholder T.data = false) :
    merge_prompts T P =
      if (pyStrip P).data.isEmpty && (pyStrip T).data.isEmpty then ""
      else if (pyStrip P).data.isEmpty then pyStrip T
      else if (pyStrip T).data.isEmpty then pyStrip P
      else pyStrip P ++ ", " ++ pyStrip T := by
  unfold merge_prompts
  rw [hc]
  by_cases hp : (pyStrip P).data.isEmpty = true <;>
    by_cases ht : (pyStrip T).data.isEmpty = true <;>
    simp [hp, ht, List.filter, joinComma]

/-- The scan over the applicable styles can only end in "no style matched" or
in the exception raised by the broken normalization loop: since every call to
`extract_style_text_from_prompt` raises, no style ever reports a match. -/
theorem findFirstMatch_cases (apps : List PromptStyle) (p n : String) :
    findFirstMatch apps p n = .ok none ∨
    findFirstMatch apps p n = .error PyErr.typeOrAttributeError := by
  induction apps with
  | nil => left; rfl
  | cons s rest ih =>
    unfold findFirstMatch extract_style_from_prompts
    by_cases hf : (pyFalsy s.prompt && pyFalsy s.negative_prompt) = true
    · rw [if_pos hf]
      exact ih
    · rw [if_neg hf]
      right
      rfl

/-- One pass of the peeling loop, with any remaining fuel, either returns the
accumulated names (reversed) with the prompts unchanged, or propagates the
exception from the broken extractor. -/
theorem extractLoop_result (fuel : Nat) (apps : List PromptStyle) (p n : String)
    (acc : List String) :
    extractLoop (fuel + 1) apps p n acc = .ok (acc.reverse, p, n) ∨
    extractLoop (fuel + 1) apps p n acc = .error PyErr.typeOrAttributeError := by
  rcases findFirstMatch_cases apps p n with h | h
  · left
    unfold extractLoop
    rw [h]
  · right
    unfold extractLoop
    rw [h]

/-- `extract_styles_from_prompt` either returns an empty extraction with the
prompts unchanged, or raises from the broken normalization loop. -/
theorem extract_styles_from_prompt_result (styles : List PromptStyle) (p n : String) :
    extract_styles_from_prompt styles p n = .ok ([], p, n) ∨
    extract_styles_from_prompt styles p n = .error PyErr.typeOrAttributeError := by
  have h := extractLoop_result styles.length styles p n []
  simpa [extract_styles_from_prompt] using h

/-! ### Claim theorems -/

/-- Claim C2 (code defect): the spec asserts that the extraction operations
never raise and that the normalization step is total, but
`extract_style_text_from_prompt` raises (`TypeError` or `AttributeError`,
depending on set iteration order) on every input, because `re_list` holds
set literals and `regex.sub(" ", replace, text)` passes a string where
`re.Pattern.sub` expects its integer `count`.  This theorem evaluates the
code on all inputs: the result is always the exception. -/
theorem extract_style_text_always_raises :
    ∀ (style_text : Option String) (prompt : String),
      extract_style_text_from_prompt style_text prompt =
        Except.error PyErr.typeOrAttributeError :=
  fun _ _ => rfl

/-- Claim C3 (code defect): on the failing input of a placeholder-free
template `"best quality"` and candidate `"a cat, best quality"`, the claim
requires the result `(true, "a cat")`, but the code raises inside the
normalization loop before the suffix test on lines 54-63 can run. -/
theorem extract_suffix_case_raises :
    extract_style_text_from_prompt (some "best quality") "a cat, best quality" =
      Except.error PyErr.typeOrAttributeError := rfl

/-- Claim C4 (code defect): on the failing input of template
`"{prompt}, best quality"` and candidate `"a cat, best quality"`, the claim
requires the result `(true, "a cat")`, but the code raises inside the
normalization loop before the placeholder split on lines 49-53 can run. -/
theorem extract_placeholder_case_raises :
    extract_style_text_from_prompt (some "{prompt}, best quality") "a cat, best quality" =
      Except.error PyErr.typeOrAttributeError := rfl

/-- Claim C7 (code defect): the merge side of the round trip works —
`merge_prompts "best quality" "a cat"` is `"a cat, best quality"` — but
extracting that template back out raises instead of returning
`(true, "a cat")`. -/
theorem merge_then_extract_raises :
    merge_prompts "best quality" "a cat" = "a cat, best quality" ∧
    extract_style_text_from_prompt (some "best quality")
        (merge_prompts "best quality" "a cat") =
      Except.error PyErr.typeOrAttributeError :=
  ⟨by decide, rfl⟩

/-- Claim C8 (code defect): for a style with a truthy template — here
positive template `"x"` against prompt `"x"`, which per the claim should
report a match — `extract_style_from_prompts` raises from the broken
normalization loop instead of returning any verdict; only styles with both
templates falsy return at all. -/
theorem extract_style_pair_raises :
    extract_style_from_prompts ⟨"S", some "x", some "", none⟩ "x" "" =
      Except.error PyErr.typeOrAttributeError := rfl

/-- Claim C1 (code defect): the forward fold of `merge_prompts` over the
style list builds the expected styled pair, but `extract_styles_from_prompt`
on that pair raises from the broken normalization loop at the first style
with a truthy template, instead of returning
`(["S1", "S2", "S3"], "dog", "ugly")` as the claim requires. -/
theorem extract_styles_roundtrip_raises :
    apply_styles_to_prompt "dog" ["masterpiece", "highres", "4k"] =
        "dog, masterpiece, highres, 4k" ∧
    apply_styles_to_prompt "ugly" ["worst", "blurry", "noisy"] =
        "ugly, worst, blurry, noisy" ∧
    extract_styles_from_prompt
        [⟨"S1", some "masterpiece", some "worst", none⟩,
         ⟨"S2", some "highres", some "blurry", none⟩,
         ⟨"S3", some "4k", some "noisy", none⟩]
        "dog, masterpiece, highres, 4k" "ugly, worst, blurry, noisy" =
      Except.error PyErr.typeOrAttributeError := by
  refine ⟨by decide, by decide, rfl⟩

/-- Claim C5: `merge_prompts` agrees with the specification's description of
TemplateMerger.merge on every template and prompt — placeholder substitution
when the template holds the token, and otherwise the join by `", "` of the
non-empty members of the trimmed pair, with either side absent yielding the
other alone and both absent yielding the empty string. -/
theorem merge_prompts_refines_spec (T P : String) :
    merge_prompts T P = merge_prompts_spec T P := by
  unfold merge_prompts_spec
  by_cases hc : containsPlaceholder T.data = true
  · unfold merge_prompts
    rw [hc]
    simp
  · have hc2 : containsPlaceholder T.data = false := by
      cases h : containsPlaceholder T.data
      · rfl
      · exact absurd h hc
    rw [merge_prompts_no_placeholder_cases T P hc2, hc2]
    simp

/-- Claim C6 counterexample: the claim asserts `merge_prompts "" P = P` for
every prompt `P`, but the concatenation branch strips the prompt, so a prompt
with surrounding whitespace is not returned unchanged. -/
theorem merge_empty_template_counterexample :
    merge_prompts "" " cat " ≠ " cat " := by decide

/-- Claim C6 (amended): merging the empty template returns the *trimmed*
prompt (hence the prompt itself exactly when it carries no surrounding
whitespace), and merging a placeholder-free template with the empty prompt
returns the trimmed template. -/
theorem merge_identity_laws :
    (∀ P : String, merge_prompts "" P = pyStrip P) ∧
    (∀ T : String, containsPlaceholder T.data = false →
      merge_prompts T "" = pyStrip T) := by
  constructor
  · intro P
    rw [merge_prompts_no_placeholder_cases "" P rfl]
    have ht : ((pyStrip "").data.isEmpty) = true := rfl
    by_cases hp : (pyStrip P).data.isEmpty = true
    · rw [if_pos (by rw [hp, ht]; rfl)]
      exact (string_empty_of_isEmpty hp).symm
    · have hp2 : (pyStrip P).data.isEmpty = false := by
        cases h : (pyStrip P).data.isEmpty
        · rfl
        · exact absurd h hp
      rw [if_neg (by rw [hp2, ht]; exact Bool.false_ne_true), if_neg (by rw [hp2]; exact Bool.false_ne_true), if_pos ht]
  · intro T hT
    rw [merge_prompts_no_placeholder_cases T "" hT]
    have hp : ((pyStrip "").data.isEmpty) = true := rfl
    by_cases ht : (pyStrip T).data.isEmpty = true
    · rw [if_pos (by rw [hp, ht]; rfl)]
      exact (string_empty_of_isEmpty ht).symm
    · have ht2 : (pyStrip T).data.isEmpty = false := by
        cases h : (pyStrip T).data.isEmpty
        · rfl
        · exact absurd h ht
      rw [if_neg (by rw [hp, ht2]; exact Bool.false_ne_true), if_pos hp]

/-- Claim C6 witness: the amended laws applied at the concrete inputs
`P = " cat "` and `T = "style"`. -/
theorem merge_identity_laws_witness :
    merge_prompts "" " cat " = pyStrip " cat " ∧
    (containsPlaceholder (String.data "style") = false ∧
      merge_prompts "style" "" = pyStrip "style") :=
  ⟨merge_identity_laws.1 " cat ", by decide, merge_identity_laws.2 "style" (by decide)⟩

/-- Claim C9: a style whose two templates are both falsy — the no-op style
`PromptStyle("None", "", "")` and the divider records
`PromptStyle(name, None, None, "divider")` alike — never matches in
`extract_style_from_prompts` (it short-circuits to `(False, prompt,
negative_prompt)` before any extraction), and its name never appears in the
name list returned by `extract_styles_from_prompt`. -/
theorem empty_style_never_matches :
    (∀ (style : PromptStyle) (p n : String),
        pyFalsy style.prompt = true → pyFalsy style.negative_prompt = true →
        extract_style_from_prompts style p n = Except.ok (false, p, n)) ∧
    (∀ (styles : List PromptStyle) (p n : String) (names : List String) (p2 n2 : String),
        extract_styles_from_prompt styles p n = Except.ok (names, p2, n2) →
        ∀ style, style ∈ styles → pyFalsy style.prompt = true →
          pyFalsy style.negative_prompt = true → style.name ∉ names) := by
  constructor
  · intro style p n hp hn
    unfold extract_style_from_prompts
    rw [if_pos (by rw [hp, hn]; rfl)]
  · intro styles p n names p2 n2 h style _ _ _
    rcases extract_styles_from_prompt_result styles p n with h2 | h2
    · rw [h2] at h
      cases h
      simp
    · rw [h2] at h
      cases h

/-- Claim C9 witness: the theorem applied to the no-op style on the pair
`("a", "b")`, and to the singleton style set holding only that style. -/
theorem empty_style_never_matches_witness :
    extract_style_from_prompts ⟨"None", some "", some "", none⟩ "a" "b" =
        Except.ok (false, "a", "b") ∧
    "None" ∉ ([] : List String) := by
  refine ⟨empty_style_never_matches.1 ⟨"None", some "", some "", none⟩ "a" "b" rfl rfl, ?_⟩
  exact empty_style_never_matches.2 [⟨"None", some "", some "", none⟩] "a" "b" [] "a" "b"
    rfl ⟨"None", some "", some "", none⟩ (by simp) rfl rfl

/-- Claim C10: the peeling loop of `extract_styles_from_prompt` terminates —
with fuel equal to the number of styles plus one, the `while True` loop never
runs out (each successful pass removes exactly one style from the applicable
list, and in fact no pass ever succeeds because the extractor raises) — and
whenever the call returns a name list at all, that list has no duplicates and
is no longer than the style list. -/
theorem extract_styles_from_prompt_terminates :
    ∀ (styles : List PromptStyle) (p n : String),
      extract_styles_from_prompt styles p n ≠ Except.error PyErr.fuelExhausted ∧
      ∀ (names : List String) (p2 n2 : String),
        extract_styles_from_prompt styles p n = Except.ok (names, p2, n2) →
        names.Nodup ∧ names.length ≤ styles.length := by
  intro styles p n
  rcases extract_styles_from_prompt_result styles p n with h | h
  · constructor
    · rw [h]
      intro hc
      cases hc
    · intro names p2 n2 he
      rw [h] at he
      cases he
      exact ⟨List.nodup_nil, by simp⟩
  · constructor
    · rw [h]
      intro hc
      injection hc with h3
      cases h3
    · intro names p2 n2 he
      rw [h] at he
      cases he

/-- Claim C10 witness: the theorem applied to the empty style set with the
pair `("a", "b")`, where the call returns `([], "a", "b")`. -/
theorem extract_styles_from_prompt_terminates_witness :
    extract_styles_from_prompt [] "a" "b" ≠ Except.error PyErr.fuelExhausted ∧
    (([] : List String).Nodup ∧ ([] : List String).length ≤ ([] : List PromptStyle).length) :=
  ⟨(extract_styles_from_prompt_terminates [] "a" "b").1,
   (extract_styles_from_prompt_terminates [] "a" "b").2 [] "a" "b" rfl⟩

end Styles
